import Mathlib

/-!
Verification of `jaxlib/py_memory_space.h`: the `xla::PyMemorySpace` binding
class, a non-copyable, non-movable Python-visible wrapper around an
`ifrt::Memory*` runtime pointer together with a shared `PyClient` reference.

The repository provides only the header. The header fixes the data model
(the two fields `client_` and `memory_`), the inline accessors `client()`
and `memory_space()`, the deleted copy/move special members, and every
method's signature (in particular the `absl::string_view` return types of
`platform`, `kind`, `Str`, `Repr`). The bodies of the remaining methods
live in a `.cc` file that is not part of the sources; those are modelled
from the specification, and each such definition says so in its doc
comment.
-/

/-- An error produced by the underlying IFRT runtime. Modelled abstractly:
only identity of the error matters for propagation claims. -/
structure RuntimeError where
  msg : String
deriving DecidableEq

/-- A device handle, as enumerated by the runtime. Only identity and order
matter for the claims about `AddressableByDevices`. -/
structure IfrtDevice where
  deviceId : Nat
deriving DecidableEq

/-- The `PyClient` object. Its internals are irrelevant to this header;
only identity matters (the handle stores a shared reference to it). -/
structure PyClient where
  clientId : Nat
deriving DecidableEq

deriving instance DecidableEq for Except

/-- The underlying `ifrt::Memory` runtime object, abstracted to the values
it reports through the calls this wrapper forwards. The process-index call
may fail in the runtime, which we represent with `Except`; the string
accessors report views into storage owned by the runtime object. -/
structure IfrtMemory where
  processIndexCall : Except RuntimeError Int
  platformName : String
  kindName : String
  strForm : String
  reprForm : String
  devices : List IfrtDevice
deriving DecidableEq

/-- The runtime call `memory->process_index()` (may fail). -/
def IfrtMemory.process_index (m : IfrtMemory) : Except RuntimeError Int :=
  m.processIndexCall

/-- The `PyMemorySpace` handle from `py_memory_space.h`: exactly the two
private fields of the class. `client_` is a `jax::nb_class_ptr<PyClient>`
(a reference-counted pointer, hence nullable, represented as `Option`);
`memory_` is a raw `ifrt::Memory*` (nullable, represented as `Option`). -/
structure PyMemorySpace where
  client_ : Option PyClient
  memory_ : Option IfrtMemory
deriving DecidableEq

/-- Modelled from the spec: the constructor
`PyMemorySpace(nb_class_ptr<PyClient> client, ifrt::Memory* memory_space)`
(body in the missing `.cc`) initializes the two fields from its arguments;
construction is infallible at this layer and performs no validation, so it
is a total function of the two pointer arguments. -/
def PyMemorySpace.construct (client : Option PyClient)
    (memory : Option IfrtMemory) : PyMemorySpace :=
  { client_ := client, memory_ := memory }

/-- Inline accessor from the header: `client()` returns the stored
`client_` reference. -/
def PyMemorySpace.client (s : PyMemorySpace) : Option PyClient :=
  s.client_

/-- Inline accessor from the header: `memory_space()` returns the stored
raw `memory_` pointer. -/
def PyMemorySpace.memory_space (s : PyMemorySpace) : Option IfrtMemory :=
  s.memory_

/-- Modelled from the spec: `process_index()` (body in the missing `.cc`)
forwards to the wrapped runtime memory object and surfaces any failure of
the underlying runtime call verbatim, with no retry and no recovery.
Dereferencing the stored pointer requires it to be non-null, hence the
outer `Option`. -/
def PyMemorySpace.process_index (s : PyMemorySpace) :
    Option (Except RuntimeError Int) :=
  s.memory_.map IfrtMemory.process_index

/-- Modelled from the spec: `platform()` (body in the missing `.cc`)
forwards the string view describing the backend platform reported by the
underlying runtime object. -/
def PyMemorySpace.platform (s : PyMemorySpace) : Option String :=
  s.memory_.map IfrtMemory.platformName

/-- Modelled from the spec: `kind()` (body in the missing `.cc`) forwards
the string view describing the memory kind reported by the underlying
runtime object. -/
def PyMemorySpace.kind (s : PyMemorySpace) : Option String :=
  s.memory_.map IfrtMemory.kindName

/-- Modelled from the spec: `Str()` (body in the missing `.cc`) forwards
the human-readable string form reported by the underlying runtime object;
the exact format is an external-library concern. -/
def PyMemorySpace.Str (s : PyMemorySpace) : Option String :=
  s.memory_.map IfrtMemory.strForm

/-- Modelled from the spec: `Repr()` (body in the missing `.cc`) forwards
the debug string form reported by the underlying runtime object; the exact
format is an external-library concern. -/
def PyMemorySpace.Repr (s : PyMemorySpace) : Option String :=
  s.memory_.map IfrtMemory.reprForm

/-- A Python list object produced by `AddressableByDevices`: a freshly
allocated host-environment object (with its own identity `objId`) holding
a fully materialized, ordered, finite sequence of device handles. -/
structure PyListObject where
  objId : Nat
  elems : List IfrtDevice
deriving DecidableEq

/-- Modelled from the spec: `AddressableByDevices()` (body in the missing
`.cc`) builds and returns a new host-environment list on each call,
containing the device handles reachable from the memory space in the order
the runtime enumerates them; the result is not cached across calls, which
we represent by threading a fresh-object-identity counter: each call
allocates a list object with a new identity. -/
def PyMemorySpace.AddressableByDevices (s : PyMemorySpace) (nextId : Nat) :
    Option (PyListObject × Nat) :=
  s.memory_.map (fun m => ({ objId := nextId, elems := m.devices }, nextId + 1))

/-- The four copy/move special member functions of the class. -/
inductive SpecialMember where
  | copyConstructor
  | moveConstructor
  | copyAssignment
  | moveAssignment
deriving DecidableEq

/-- Status of a special member function in the C++ type: `deleted` means
any attempted use is statically rejected (ill-formed program). -/
inductive MemberStatus where
  | available
  | deleted
deriving DecidableEq

/-- Transcribed from the header (lines 35-38): all four copy/move special
members of `PyMemorySpace` are explicitly `= delete`, so memory spaces are
compared by Python object identity and can be neither copied nor moved. -/
def PyMemorySpace.specialMemberStatus : SpecialMember → MemberStatus
  | .copyConstructor => .deleted
  | .moveConstructor => .deleted
  | .copyAssignment => .deleted
  | .moveAssignment => .deleted

/-- The fields of the handle, for stating which references the
garbage-collector hooks touch. -/
inductive FieldRef where
  | clientField
  | memoryField
deriving DecidableEq

/-- Modelled from the spec: `tp_traverse` (body in the missing `.cc`)
reports to the cycle collector exactly the references the object holds
into the host object graph: the client reference, and nothing else. The
raw `memory_` pointer is not a host object and is not visited. -/
def PyMemorySpace.tp_traverse (_s : PyMemorySpace) : List FieldRef :=
  [FieldRef.clientField]

/-- Modelled from the spec: `tp_clear` (body in the missing `.cc`)
detaches the client reference, leaving the handle in a well-defined
cleared state (the client reference is null afterwards); the `memory_`
field is untouched. -/
def PyMemorySpace.tp_clear (s : PyMemorySpace) : PyMemorySpace :=
  { s with client_ := none }

/-- The read-only accessor methods declared in the header. -/
inductive AccessorMethod where
  | processIndexM
  | platformM
  | kindM
  | strM
  | reprM
  | addressableByDevicesM
deriving DecidableEq

/-- The kind of value each accessor returns, as declared in the header.
`stringViewType` stands for `absl::string_view`: a non-owning view that
does not copy its characters. -/
inductive ReturnTypeKind where
  | intType
  | stringViewType
  | pyListType
deriving DecidableEq

/-- Whether a return-type kind is a non-owning view into storage owned by
another object (true exactly for `absl::string_view`). -/
def ReturnTypeKind.isNonOwningView : ReturnTypeKind → Bool
  | .stringViewType => true
  | _ => false

/-- Transcribed from the header (lines 43-50): the declared return type of
each read-only accessor of `PyMemorySpace`. -/
def PyMemorySpace.returnTypeOf : AccessorMethod → ReturnTypeKind
  | .processIndexM => .intType
  | .platformM => .stringViewType
  | .kindM => .stringViewType
  | .strM => .stringViewType
  | .reprM => .stringViewType
  | .addressableByDevicesM => .pyListType

/-- The non-static public member functions of `PyMemorySpace` other than
the constructor and the deleted copy/move members, as declared in the
header (lines 40-50): the two field accessors and the six forwarding
observers. -/
inductive MemberFunction where
  | clientF
  | memorySpaceF
  | processIndexF
  | platformF
  | kindF
  | strF
  | reprF
  | addressableByDevicesF
deriving DecidableEq

/-- Whether a member function only observes the handle or stores a new
value into one of its fields. -/
inductive Mutability where
  | constObserver
  | setter
deriving DecidableEq

/-- Transcribed from the header (lines 40-50): every non-static public
member function of `PyMemorySpace` is declared `const` and takes no value
to store, so none reassigns `client_` or `memory_` — no setter exists for
either field. -/
def PyMemorySpace.memberMutability : MemberFunction → Mutability
  | .clientF => .constObserver
  | .memorySpaceF => .constObserver
  | .processIndexF => .constObserver
  | .platformF => .constObserver
  | .kindF => .constObserver
  | .strF => .constObserver
  | .reprF => .constObserver
  | .addressableByDevicesF => .constObserver

/-- A stub runtime memory object with known fixed values: process index 3,
platform "mock", kind "pinned_host", and two enumerated devices. -/
def mockMemory : IfrtMemory :=
  { processIndexCall := Except.ok 3
    platformName := "mock"
    kindName := "pinned_host"
    strForm := "mock memory"
    reprForm := "MockMemory(pinned_host)"
    devices := [{ deviceId := 0 }, { deviceId := 1 }] }

/-- A stub runtime memory object whose process-index call fails. -/
def failingMemory : IfrtMemory :=
  { processIndexCall := Except.error { msg := "runtime failure" }
    platformName := "mock"
    kindName := "pinned_host"
    strForm := "mock memory"
    reprForm := "MockMemory(pinned_host)"
    devices := [] }

/-- A stub client. -/
def cStub : PyClient := { clientId := 7 }

/-- C1: for every handle and every call, `process_index()` forwards to the
wrapped runtime memory object, and a failure of the underlying runtime
call is surfaced verbatim to the caller (not swallowed, no retry, no
recovery); a success is likewise forwarded exactly. -/
theorem processIndex_forwards_and_surfaces_errors
    (s : PyMemorySpace) (m : IfrtMemory) (hm : s.memory_space = some m) :
    s.process_index = some m.process_index ∧
    (∀ e : RuntimeError, m.process_index = Except.error e →
      s.process_index = some (Except.error e)) ∧
    (∀ v : Int, m.process_index = Except.ok v →
      s.process_index = some (Except.ok v)) := by
  have hm' : s.memory_ = some m := hm
  refine ⟨?_, ?_, ?_⟩
  · simp [PyMemorySpace.process_index, hm']
  · intro e he
    simp [PyMemorySpace.process_index, hm', he]
  · intro v hv
    simp [PyMemorySpace.process_index, hm', hv]

/-- C1 witness: on a handle wrapping `failingMemory`, whose runtime call
fails, the error is surfaced verbatim through `process_index()`. -/
theorem processIndex_forwards_and_surfaces_errors_witness :
    (PyMemorySpace.construct (some cStub) (some failingMemory)).process_index
      = some (Except.error { msg := "runtime failure" }) :=
  (processIndex_forwards_and_surfaces_errors
    (PyMemorySpace.construct (some cStub) (some failingMemory))
    failingMemory rfl).2.1 { msg := "runtime failure" } rfl

/-- C2 counterexample: the constructor accepts a null `ifrt::Memory*`
pointer, and for the handle constructed from `(cStub, nullptr)` the
accessor `memory_space()` returns null — refuting that the accessor
values are never null for every constructed handle. -/
theorem memorySpace_null_counterexample :
    (PyMemorySpace.construct (some cStub) none).memory_space = none := rfl

/-- C2 (amended): for every handle, `client()` and `memory_space()`
return exactly the values passed at construction (unconditionally);
neither field is ever reassigned — no setter exists for either field
(every non-static public member function is a const observer); and the
returned values are non-null whenever non-null values were passed at
construction (the constructor itself does not enforce non-nullness). -/
theorem accessors_return_construction_values
    (c : Option PyClient) (m : Option IfrtMemory) :
    (PyMemorySpace.construct c m).client = c ∧
    (PyMemorySpace.construct c m).memory_space = m ∧
    (∀ f : MemberFunction,
      PyMemorySpace.memberMutability f = Mutability.constObserver) ∧
    (c ≠ none → (PyMemorySpace.construct c m).client ≠ none) ∧
    (m ≠ none → (PyMemorySpace.construct c m).memory_space ≠ none) :=
  ⟨rfl, rfl, fun f => by cases f <;> rfl, fun hc => hc, fun hm => hm⟩

/-- C2 witness: the amended claim evaluated on the stub pair, with the
non-nullness implications discharged at the non-null arguments. -/
theorem accessors_return_construction_values_witness :
    (PyMemorySpace.construct (some cStub) (some mockMemory)).client = some cStub ∧
    (PyMemorySpace.construct (some cStub) (some mockMemory)).memory_space = some mockMemory ∧
    (∀ f : MemberFunction,
      PyMemorySpace.memberMutability f = Mutability.constObserver) ∧
    (PyMemorySpace.construct (some cStub) (some mockMemory)).client ≠ none ∧
    (PyMemorySpace.construct (some cStub) (some mockMemory)).memory_space ≠ none :=
  have h := accessors_return_construction_values (some cStub) (some mockMemory)
  ⟨h.1, h.2.1, h.2.2.1,
    h.2.2.2.1 (Option.some_ne_none cStub),
    h.2.2.2.2 (Option.some_ne_none mockMemory)⟩

/-- C3: `process_index()`, `platform()` and `kind()` each forward exactly
the value the underlying runtime memory object reports, for every handle
wrapping a runtime memory object; in particular, on the stub reporting
process index 3, platform "mock" and kind "pinned_host" the accessors
return those exact values. The model is purely functional, so the calls
have no side effects. -/
theorem accessors_forward_runtime_values :
    (∀ (c : Option PyClient) (m : IfrtMemory),
      (PyMemorySpace.construct c (some m)).process_index = some m.process_index ∧
      (PyMemorySpace.construct c (some m)).platform = some m.platformName ∧
      (PyMemorySpace.construct c (some m)).kind = some m.kindName) ∧
    (PyMemorySpace.construct (some cStub) (some mockMemory)).process_index
      = some (Except.ok 3) ∧
    (PyMemorySpace.construct (some cStub) (some mockMemory)).platform
      = some "mock" ∧
    (PyMemorySpace.construct (some cStub) (some mockMemory)).kind
      = some "pinned_host" :=
  ⟨fun _ _ => ⟨rfl, rfl, rfl⟩, rfl, rfl, rfl⟩

/-- C4: all four copy/move special members of `PyMemorySpace` are deleted,
so every attempted copy or move is statically rejected at the type level. -/
theorem copy_and_move_statically_rejected :
    ∀ op : SpecialMember,
      PyMemorySpace.specialMemberStatus op = MemberStatus.deleted := by
  intro op
  cases op <;> rfl

/-- C5: each call to `AddressableByDevices()` produces a finite, ordered
host list of the device handles reachable from the memory space, freshly
materialized on that call: two successive calls yield list objects with
distinct identities (the result is not cached) while each holds the fully
materialized sequence of devices. -/
theorem addressableByDevices_fresh_each_call
    (s : PyMemorySpace) (m : IfrtMemory) (nextId : Nat)
    (hm : s.memory_space = some m) :
    ∃ l1 n1 l2 n2,
      s.AddressableByDevices nextId = some (l1, n1) ∧
      s.AddressableByDevices n1 = some (l2, n2) ∧
      l1.elems = m.devices ∧ l2.elems = m.devices ∧
      l1.objId ≠ l2.objId := by
  have hm' : s.memory_ = some m := hm
  refine ⟨{ objId := nextId, elems := m.devices }, nextId + 1,
    { objId := nextId + 1, elems := m.devices }, nextId + 2, ?_, ?_, rfl, rfl, ?_⟩
  · simp [PyMemorySpace.AddressableByDevices, hm']
  · simp [PyMemorySpace.AddressableByDevices, hm']
  · show nextId ≠ nextId + 1
    omega

/-- C5 witness: the freshness property evaluated on the stub handle. -/
theorem addressableByDevices_fresh_each_call_witness :
    ∃ l1 n1 l2 n2,
      (PyMemorySpace.construct (some cStub) (some mockMemory)).AddressableByDevices 0
        = some (l1, n1) ∧
      (PyMemorySpace.construct (some cStub) (some mockMemory)).AddressableByDevices n1
        = some (l2, n2) ∧
      l1.elems = mockMemory.devices ∧ l2.elems = mockMemory.devices ∧
      l1.objId ≠ l2.objId :=
  addressableByDevices_fresh_each_call
    (PyMemorySpace.construct (some cStub) (some mockMemory)) mockMemory 0 rfl

/-- C6: when the underlying topology is unchanged between two calls (the
handle wraps the same runtime memory object), two successive calls to
`AddressableByDevices()` return sequences of the same length with the same
devices in the same order. -/
theorem addressableByDevices_stable_elements
    (s : PyMemorySpace) (m : IfrtMemory) (id1 id2 : Nat)
    (hm : s.memory_space = some m) :
    ∃ l1 n1 l2 n2,
      s.AddressableByDevices id1 = some (l1, n1) ∧
      s.AddressableByDevices id2 = some (l2, n2) ∧
      l1.elems = l2.elems ∧
      l1.elems.length = l2.elems.length := by
  have hm' : s.memory_ = some m := hm
  refine ⟨{ objId := id1, elems := m.devices }, id1 + 1,
    { objId := id2, elems := m.devices }, id2 + 1, ?_, ?_, rfl, rfl⟩
  · simp [PyMemorySpace.AddressableByDevices, hm']
  · simp [PyMemorySpace.AddressableByDevices, hm']

/-- C6 witness: stability of the device sequence on the stub handle. -/
theorem addressableByDevices_stable_elements_witness :
    ∃ l1 n1 l2 n2,
      (PyMemorySpace.construct (some cStub) (some mockMemory)).AddressableByDevices 0
        = some (l1, n1) ∧
      (PyMemorySpace.construct (some cStub) (some mockMemory)).AddressableByDevices 5
        = some (l2, n2) ∧
      l1.elems = l2.elems ∧
      l1.elems.length = l2.elems.length :=
  addressableByDevices_stable_elements
    (PyMemorySpace.construct (some cStub) (some mockMemory)) mockMemory 0 5 rfl

/-- C7: the garbage-collector traversal hook visits exactly the client
reference and no other field; the clear hook detaches the client reference
(subsequent access observes the well-defined cleared state, a null client)
and leaves the memory field untouched. -/
theorem gc_hooks_touch_only_client (s : PyMemorySpace) :
    s.tp_traverse = [FieldRef.clientField] ∧
    FieldRef.memoryField ∉ s.tp_traverse ∧
    (PyMemorySpace.tp_clear s).client = none ∧
    (PyMemorySpace.tp_clear s).memory_space = s.memory_space :=
  ⟨rfl, by simp [PyMemorySpace.tp_traverse], rfl, rfl⟩

/-- C8: for every non-null client and every memory argument referring to a
live runtime object, construction succeeds unconditionally and yields a
handle whose accessors return the arguments; there is no failure path at
this layer. -/
theorem construction_never_fails (c : Option PyClient) (m : Option IfrtMemory)
    (hc : c ≠ none) (hm : m ≠ none) :
    ∃ s : PyMemorySpace, PyMemorySpace.construct c m = s ∧
      s.client = c ∧ s.memory_space = m :=
  ⟨PyMemorySpace.construct c m, rfl, rfl, rfl⟩

/-- C8 witness: construction of the stub handle succeeds. -/
theorem construction_never_fails_witness :
    ∃ s : PyMemorySpace,
      PyMemorySpace.construct (some cStub) (some mockMemory) = s ∧
      s.client = some cStub ∧ s.memory_space = some mockMemory :=
  construction_never_fails (some cStub) (some mockMemory)
    (Option.some_ne_none cStub) (Option.some_ne_none mockMemory)

/-- C9: the constructor accepts its memory argument without validation: a
null `ifrt::Memory*` pointer is accepted, a handle is constructed, and
`memory_space()` then returns that null pointer. -/
theorem null_memory_accepted (c : Option PyClient) :
    ∃ s : PyMemorySpace, PyMemorySpace.construct c none = s ∧
      s.memory_space = none :=
  ⟨PyMemorySpace.construct c none, rfl, rfl⟩

/-- C10: `Str()` and `Repr()` are declared to return `absl::string_view`
(a non-owning view that does not copy its characters), exactly like
`platform()` and `kind()`. -/
theorem str_repr_return_string_views :
    PyMemorySpace.returnTypeOf AccessorMethod.strM = ReturnTypeKind.stringViewType ∧
    PyMemorySpace.returnTypeOf AccessorMethod.reprM = ReturnTypeKind.stringViewType ∧
    PyMemorySpace.returnTypeOf AccessorMethod.strM
      = PyMemorySpace.returnTypeOf AccessorMethod.platformM ∧
    PyMemorySpace.returnTypeOf AccessorMethod.reprM
      = PyMemorySpace.returnTypeOf AccessorMethod.kindM ∧
    (PyMemorySpace.returnTypeOf AccessorMethod.strM).isNonOwningView = true ∧
    (PyMemorySpace.returnTypeOf AccessorMethod.reprM).isNonOwningView = true := by
  decide
